import Mathlib

/-!
Verification of the clock-series repository core: the time engine
(src/shared/src/time_engine.rs) and the audit ledger
(src/clocks/06_audit_ledger/src/ledger.rs).

Modelling conventions.
Instants are UTC timestamps in integer nanoseconds (chrono DateTime has
nanosecond precision; Duration::hours(24) is 86400000000000 ns and
Duration::minutes(1) is 60000000000 ns).  UTC offsets are in integer
seconds, as returned by chrono FixedOffset::local_minus_utc.  A timezone
is the external capability the code obtains from chrono-tz: a family of
total functions of the instant (offset, local civil fields) together with
the two reference offsets the Jan-15/Jul-15 heuristic samples per local
year.  Presentation-only data that no claim touches is omitted from the
embedded records: year/month/day/weekday, the sub-second fraction, the
zone abbreviation and validity flag in TimeData, and the collapse/scroll
UI state in LedgerState.  Rust integer division truncates toward zero,
which is Int.tdiv; the one division inside the binary search only ever
divides a positive duration, where Lean division agrees with Rust.
-/

/-- AM/PM indicator (time_engine.rs, Meridiem). -/
inductive Meridiem
  | am
  | pm
deriving DecidableEq, Repr

/-- Rendering of a Meridiem, as in its Display impl. -/
def Meridiem.str : Meridiem → String
  | Meridiem.am => ("AM")
  | Meridiem.pm => ("PM")

/-- DST transition information (time_engine.rs, DstChange).  The instant
is the transition instant in UTC nanoseconds; delta_minutes is positive
for a spring forward and negative for a fall back. -/
inductive DstChange
  | none
  | upcoming (instant : Int) (delta_minutes : Int)
  | justOccurred (instant : Int) (delta_minutes : Int)
deriving DecidableEq, Repr

/-- The timezone capability consumed by the engine (chrono-tz in the
source): the UTC offset in seconds at an instant, the local civil fields
of an instant, the local year of an instant, and the offsets sampled at
local January 15, 12:00 and July 15, 12:00 of a given year (Option.none
when the chrono lookup does not resolve to a single instant, mirroring
with_ymd_and_hms(..).single()). -/
structure Zone where
  offset_sec : Int → Int
  hour24 : Int → Nat
  minute : Int → Nat
  second : Int → Nat
  local_year : Int → Int
  jan_ref : Int → Option Int
  jul_ref : Int → Option Int

/-- Binary search for the transition instant (time_engine.rs,
find_transition_time).  While the window exceeds Duration::minutes(1)
= 60000000000 ns, probe the midpoint: if it still carries start_offset
move low up, otherwise move high down; return high. -/
def find_transition_time (z : Zone) (low high start_offset : Int) : Int :=
  if h : 60000000000 < high - low then
    if z.offset_sec (low + (high - low) / 2) = start_offset then
      find_transition_time z (low + (high - low) / 2) high start_offset
    else
      find_transition_time z low (low + (high - low) / 2) start_offset
  else high
termination_by (high - low).toNat
decreasing_by
  all_goals omega

/-- DST status detector and change classifier (time_engine.rs,
detect_dst_status).  is_dst uses the Jan-15/Jul-15 seasonal heuristic;
the classifier probes the offset 24 hours ahead and, failing that,
24 hours back.  Rust divides the i32 offset delta by 60 with truncation,
hence Int.tdiv. -/
def detect_dst_status (z : Zone) (now_utc : Int) : Bool × DstChange :=
  let current_offset := z.offset_sec now_utc
  let is_dst :=
    match z.jan_ref (z.local_year now_utc), z.jul_ref (z.local_year now_utc) with
    | some jan_offset, some jul_offset =>
        if jan_offset ≠ jul_offset then current_offset == max jan_offset jul_offset
        else false
    | _, _ => false
  let future := now_utc + 86400000000000
  let future_offset := z.offset_sec future
  if future_offset ≠ current_offset then
    (is_dst, DstChange.upcoming (find_transition_time z now_utc future current_offset)
      (Int.tdiv (future_offset - current_offset) 60))
  else
    let past := now_utc - 86400000000000
    let past_offset := z.offset_sec past
    if past_offset ≠ current_offset then
      (is_dst, DstChange.justOccurred (find_transition_time z past now_utc past_offset)
        (Int.tdiv (current_offset - past_offset) 60))
    else (is_dst, DstChange.none)

/-- A single-transition offset profile with the transition at 10 s
(10000000000 ns): offset 0 before, 3600 s after — the shape of a spring
forward placed near the start of a probe window.  The civil fields play
no role in the transition search. -/
def step_zone : Zone where
  offset_sec := fun t => if t < 10000000000 then 0 else 3600
  hour24 := fun _ => 0
  minute := fun _ => 0
  second := fun _ => 0
  local_year := fun _ => 2024
  jan_ref := fun _ => some 0
  jul_ref := fun _ => some 0

/-- A zone with equal Jan-15/Jul-15 reference offsets (modelled as having
no DST) whose base offset nevertheless changes inside the 24-hour probe
window — the shape of a permanent standard-offset change such as
Europe/Volgograd in December 2020. -/
def shift_zone : Zone where
  offset_sec := fun t => if t < 86400000000000 then 0 else 3600
  hour24 := fun _ => 0
  minute := fun _ => 0
  second := fun _ => 0
  local_year := fun _ => 2020
  jan_ref := fun _ => some 0
  jul_ref := fun _ => some 0

/-- A constant-offset zone: no transition anywhere, Jan and Jul reference
offsets equal. -/
def flat_zone : Zone where
  offset_sec := fun _ => 0
  hour24 := fun _ => 3
  minute := fun _ => 0
  second := fun _ => 0
  local_year := fun _ => 2024
  jan_ref := fun _ => some 0
  jul_ref := fun _ => some 0

/-- Localisation of the binary search on a single-step offset profile:
the result stays bracketed just above the true transition T, within the
final 60-second window. -/
lemma find_transition_time_loc (z : Zone) (T o1 o2 : Int)
    (hz : ∀ t, z.offset_sec t = if t < T then o1 else o2) (hne : o1 ≠ o2) :
    ∀ n : ℕ, ∀ low high : Int, (high - low).toNat ≤ n → low < T → T ≤ high →
      T ≤ find_transition_time z low high o1 ∧
      find_transition_time z low high o1 - T < 60000000000 ∧
      find_transition_time z low high o1 ≤ high := by
  intro n
  induction n with
  | zero =>
    intro low high hn h1 h2
    exfalso
    omega
  | succ n ih =>
    intro low high hn h1 h2
    rw [find_transition_time]
    by_cases hc : (60000000000 : Int) < high - low
    · rw [dif_pos hc]
      by_cases hm : z.offset_sec (low + (high - low) / 2) = o1
      · rw [if_pos hm]
        have hmidT : low + (high - low) / 2 < T := by
          by_contra hmid
          rw [hz] at hm
          rw [if_neg hmid] at hm
          exact hne hm.symm
        exact ih (low + (high - low) / 2) high (by omega) hmidT h2
      · rw [if_neg hm]
        have hmidT : T ≤ low + (high - low) / 2 := by
          by_contra hmid
          push_neg at hmid
          rw [hz] at hm
          rw [if_pos hmid] at hm
          exact hm rfl
        obtain ⟨ha, hb, hle⟩ := ih low (low + (high - low) / 2) (by omega) h1 hmidT
        exact ⟨ha, hb, by omega⟩
    · rw [dif_neg hc]
      omega

/-- C4 (amended): for a window bracketing a single offset transition at T,
the binary search returns an instant t carrying the new offset, with T ≤ t
and t within 60 seconds after T (the final window is at most 60 s), so
offset(t - 60 s) differs from offset(t).  The original claim that
offset(t - 1 s) differs from offset(t) is false — the loop stops once the
window is 60 s wide, not 1 s (see the counterexample). -/
theorem find_transition_time_within_sixty_seconds (z : Zone) (T o1 o2 low high : Int)
    (hz : ∀ t, z.offset_sec t = if t < T then o1 else o2) (hne : o1 ≠ o2)
    (hlow : low < T) (hhigh : T ≤ high) :
    T ≤ find_transition_time z low high o1 ∧
    find_transition_time z low high o1 - T < 60000000000 ∧
    find_transition_time z low high o1 ≤ high ∧
    z.offset_sec (find_transition_time z low high o1) ≠ z.offset_sec low ∧
    z.offset_sec (find_transition_time z low high o1 - 60000000000) ≠
      z.offset_sec (find_transition_time z low high o1) := by
  obtain ⟨hT, hw, hh⟩ :=
    find_transition_time_loc z T o1 o2 hz hne (high - low).toNat low high le_rfl hlow hhigh
  refine ⟨hT, hw, hh, ?_, ?_⟩
  · rw [hz, hz, if_neg (by omega), if_pos hlow]
    exact fun hcon => hne hcon.symm
  · rw [hz, hz, if_pos (by omega), if_neg (by omega)]
    exact hne

/-- Witness for C4 on the concrete single-transition zone step_zone
(transition at 10 s), window 0 s to 120 s. -/
theorem find_transition_time_within_sixty_seconds_witness :
    ((0 : Int) < 10000000000 ∧ (10000000000 : Int) ≤ 120000000000) ∧
    (10000000000 ≤ find_transition_time step_zone 0 120000000000 0 ∧
     find_transition_time step_zone 0 120000000000 0 - 10000000000 < 60000000000 ∧
     find_transition_time step_zone 0 120000000000 0 ≤ 120000000000 ∧
     step_zone.offset_sec (find_transition_time step_zone 0 120000000000 0) ≠
       step_zone.offset_sec 0 ∧
     step_zone.offset_sec (find_transition_time step_zone 0 120000000000 0 - 60000000000) ≠
       step_zone.offset_sec (find_transition_time step_zone 0 120000000000 0)) :=
  ⟨⟨by decide, by decide⟩,
    find_transition_time_within_sixty_seconds step_zone 10000000000 0 3600 0 120000000000
      (fun t => rfl) (by decide) (by decide) (by decide)⟩

/-- C4 (counterexample): on the window 0 s to 120 s with the transition at
10 s, the search returns t = 60 s, and offset(t - 1 s) already equals
offset(t) — the claimed property offset(t-1s) ≠ offset(t) fails even
though the window precondition offset(low) ≠ offset(high) holds and there
is exactly one transition inside it. -/
theorem find_transition_time_one_second_cex :
    step_zone.offset_sec 0 ≠ step_zone.offset_sec 120000000000 ∧
    find_transition_time step_zone 0 120000000000 0 = 60000000000 ∧
    step_zone.offset_sec (60000000000 - 1000000000) = step_zone.offset_sec 60000000000 := by
  refine ⟨by decide, ?_, by decide⟩
  rw [find_transition_time]
  norm_num [step_zone]
  rw [find_transition_time]
  norm_num

/-- C5: if the offset 24 h ahead differs from the current offset, the
classifier returns Upcoming with the transition located on the window
from the instant to instant + 24 h using the current offset as the low
reference and delta_minutes = (future - current)/60 — with no condition
on the past offset, so Upcoming takes priority when both windows change;
and it returns None exactly when the future and past offsets both equal
the current one. -/
theorem upcoming_priority_and_none_condition (z : Zone) (now_utc : Int) :
    (z.offset_sec (now_utc + 86400000000000) ≠ z.offset_sec now_utc →
      (detect_dst_status z now_utc).2 =
        DstChange.upcoming
          (find_transition_time z now_utc (now_utc + 86400000000000) (z.offset_sec now_utc))
          (Int.tdiv (z.offset_sec (now_utc + 86400000000000) - z.offset_sec now_utc) 60)) ∧
    ((detect_dst_status z now_utc).2 = DstChange.none ↔
      (z.offset_sec (now_utc + 86400000000000) = z.offset_sec now_utc ∧
       z.offset_sec (now_utc - 86400000000000) = z.offset_sec now_utc)) := by
  constructor
  · intro hf
    simp only [detect_dst_status]
    rw [if_pos hf]
  · simp only [detect_dst_status]
    by_cases hf : z.offset_sec (now_utc + 86400000000000) ≠ z.offset_sec now_utc
    · rw [if_pos hf]
      constructor
      · intro hcon
        exact absurd hcon (by simp)
      · intro hcon
        exact absurd hcon.1 hf
    · push_neg at hf
      rw [if_neg (by simpa using hf)]
      by_cases hp : z.offset_sec (now_utc - 86400000000000) ≠ z.offset_sec now_utc
      · rw [if_pos hp]
        constructor
        · intro hcon
          exact absurd hcon (by simp)
        · intro hcon
          exact absurd hcon.2 hp
      · push_neg at hp
        rw [if_neg (by simpa using hp)]
        simp [hf, hp]

/-- Witness for C5 at the concrete zone shift_zone and instant 0, whose
future offset differs from the current one. -/
theorem upcoming_priority_and_none_condition_witness :
    (shift_zone.offset_sec (0 + 86400000000000) ≠ shift_zone.offset_sec 0 →
      (detect_dst_status shift_zone 0).2 =
        DstChange.upcoming
          (find_transition_time shift_zone 0 (0 + 86400000000000) (shift_zone.offset_sec 0))
          (Int.tdiv (shift_zone.offset_sec (0 + 86400000000000) - shift_zone.offset_sec 0) 60)) ∧
    ((detect_dst_status shift_zone 0).2 = DstChange.none ↔
      (shift_zone.offset_sec (0 + 86400000000000) = shift_zone.offset_sec 0 ∧
       shift_zone.offset_sec (0 - 86400000000000) = shift_zone.offset_sec 0)) :=
  upcoming_priority_and_none_condition shift_zone 0

/-- C6 (amended): when the Jan-15 and Jul-15 reference offsets of the
instant's local year are equal, is_dst is always false; the classifier
additionally returns None provided the offset is also unchanged at both
24-hour probes.  With only the Jan = Jul hypothesis, DstChange can be
Upcoming or JustOccurred — a base-offset change inside the window is
classified even though the zone is modelled as having no DST (see the
counterexample). -/
theorem no_dst_model_is_dst_false (z : Zone) (now_utc : Int) (r : Int)
    (hjan : z.jan_ref (z.local_year now_utc) = some r)
    (hjul : z.jul_ref (z.local_year now_utc) = some r) :
    (detect_dst_status z now_utc).1 = false ∧
    (z.offset_sec (now_utc + 86400000000000) = z.offset_sec now_utc →
     z.offset_sec (now_utc - 86400000000000) = z.offset_sec now_utc →
     (detect_dst_status z now_utc).2 = DstChange.none) := by
  constructor
  · simp only [detect_dst_status, hjan, hjul]
    split_ifs <;> simp_all
  · intro h1 h2
    simp only [detect_dst_status]
    rw [if_neg (by simpa using h1), if_neg (by simpa using h2)]

/-- Witness for C6 (amended) at the constant-offset zone flat_zone. -/
theorem no_dst_model_is_dst_false_witness :
    (flat_zone.jan_ref (flat_zone.local_year 0) = some 0 ∧
     flat_zone.jul_ref (flat_zone.local_year 0) = some 0) ∧
    ((detect_dst_status flat_zone 0).1 = false ∧
     (flat_zone.offset_sec (0 + 86400000000000) = flat_zone.offset_sec 0 →
      flat_zone.offset_sec (0 - 86400000000000) = flat_zone.offset_sec 0 →
      (detect_dst_status flat_zone 0).2 = DstChange.none)) :=
  ⟨⟨rfl, rfl⟩, no_dst_model_is_dst_false flat_zone 0 0 rfl rfl⟩

/-- C6 (counterexample): shift_zone has equal Jan-15/Jul-15 reference
offsets — the model's no-DST criterion — yet at instant 0 the classifier
returns a non-None DstChange, because the offset 24 h ahead differs
(a permanent base-offset change); only is_dst = false holds. -/
theorem no_dst_model_change_cex :
    shift_zone.jan_ref (shift_zone.local_year 0) = some 0 ∧
    shift_zone.jul_ref (shift_zone.local_year 0) = some 0 ∧
    (detect_dst_status shift_zone 0).1 = false ∧
    (detect_dst_status shift_zone 0).2 ≠ DstChange.none := by
  refine ⟨rfl, rfl, ?_, ?_⟩
  · simp [detect_dst_status, shift_zone]
  · simp only [detect_dst_status]
    rw [if_pos (by decide)]
    simp

/-- Zero-padded two-digit rendering of a number, as Rust formats with a
width-2 zero-pad. -/
def format2 (n : Nat) : String :=
  if n < 10 then ("0") ++ Nat.repr n else Nat.repr n

/-- Per-tick time data (time_engine.rs, TimeData), restricted to the
fields the DST logic and the ledger consume.  local_datetime is the
chrono DateTime of the local time; it is represented here by its UTC
instant, which is exactly what with_timezone(&Utc) recovers from it. -/
structure TimeData where
  hour12 : Nat
  hour24 : Nat
  minute : Nat
  second : Nat
  meridiem : Meridiem
  utc_offset_minutes : Int
  is_dst : Bool
  dst_change : DstChange
  local_datetime : Int
deriving DecidableEq, Repr

/-- UTC offset display string (time_engine.rs, TimeData::format_utc_offset). -/
def TimeData.format_utc_offset (td : TimeData) : String :=
  let sign := if 0 ≤ td.utc_offset_minutes then ("+") else ("-")
  let abs_minutes := td.utc_offset_minutes.natAbs
  ("UTC") ++ sign ++ format2 (abs_minutes / 60) ++ (":") ++ format2 (abs_minutes % 60)

/-- The hh:mm:ss AM/PM timestamp string both LedgerEntry constructors
format from a TimeData. -/
def fmt_timestamp (td : TimeData) : String :=
  format2 td.hour12 ++ (":") ++ format2 td.minute ++ (":") ++ format2 td.second
    ++ (" ") ++ td.meridiem.str

/-- Time data for a timezone at an instant (time_engine.rs,
compute_time_data_at).  hour12 follows the source match (0 maps to 12,
1..=12 to itself, else hour24 - 12); the offset in minutes is the i32
truncating division of the offset in seconds by 60. -/
def compute_time_data_at (z : Zone) (now_utc : Int) : TimeData :=
  let hour24 := z.hour24 now_utc
  let hour12 := if hour24 = 0 then 12 else if hour24 ≤ 12 then hour24 else hour24 - 12
  let meridiem := if hour24 < 12 then Meridiem.am else Meridiem.pm
  let status := detect_dst_status z now_utc
  { hour12 := hour12
    hour24 := hour24
    minute := z.minute now_utc
    second := z.second now_utc
    meridiem := meridiem
    utc_offset_minutes := Int.tdiv (z.offset_sec now_utc) 60
    is_dst := status.1
    dst_change := status.2
    local_datetime := now_utc }

/-- Time range filter options (ledger.rs, TimeRangeFilter). -/
inductive TimeRangeFilter
  | minutes5
  | minutes10
  | minutes30
  | minutes60
deriving DecidableEq, Repr

/-- Window size in seconds (ledger.rs, TimeRangeFilter::as_seconds). -/
def TimeRangeFilter.as_seconds : TimeRangeFilter → Nat
  | TimeRangeFilter.minutes5 => 5 * 60
  | TimeRangeFilter.minutes10 => 10 * 60
  | TimeRangeFilter.minutes30 => 30 * 60
  | TimeRangeFilter.minutes60 => 60 * 60

/-- DST badge of a ledger entry (ledger.rs, DstBadge).  The gapMarker
payloads are the from/to wall-clock labels of the skipped range. -/
inductive DstBadge
  | none
  | active
  | gapMarker (gfrom gto : String)
  | overlapPass1
  | overlapPass2
deriving DecidableEq, Repr

/-- Whether a badge is a gap marker (the matches! tests on GapMarker in
ledger.rs). -/
def DstBadge.is_gap : DstBadge → Bool
  | DstBadge.gapMarker _ _ => true
  | _ => false

/-- A single ledger entry representing one second (ledger.rs,
LedgerEntry). -/
structure LedgerEntry where
  instant_utc : Int
  local_timestamp : String
  block_id : Nat
  chapter_id : Nat
  offset_str : String
  dst_badge : DstBadge
  second : Nat
  utc_offset_minutes : Int
deriving DecidableEq, Repr

/-- Whether an entry is a special marker (ledger.rs,
LedgerEntry::is_marker). -/
def LedgerEntry.is_marker (e : LedgerEntry) : Bool :=
  match e.dst_badge with
  | DstBadge.gapMarker _ _ => true
  | DstBadge.overlapPass1 => true
  | DstBadge.overlapPass2 => true
  | _ => false

/-- Build a ledger entry from a UTC instant and timezone (ledger.rs,
LedgerEntry::from_instant).  The display fields come from a fresh
compute_time_data_at; the is_dst flag is the caller's. -/
def LedgerEntry.from_instant (instant_utc : Int) (z : Zone)
    (is_dst in_overlap is_first_pass : Bool) : LedgerEntry :=
  let time_data := compute_time_data_at z instant_utc
  let dst_badge :=
    if in_overlap then
      if is_first_pass then DstBadge.overlapPass1 else DstBadge.overlapPass2
    else if is_dst then DstBadge.active
    else DstBadge.none
  { instant_utc := instant_utc
    local_timestamp := fmt_timestamp time_data
    block_id := time_data.minute
    chapter_id := time_data.hour24
    offset_str := time_data.format_utc_offset
    dst_badge := dst_badge
    second := time_data.second
    utc_offset_minutes := time_data.utc_offset_minutes }

/-- Gap marker entry for a DST spring forward (ledger.rs,
LedgerEntry::gap_marker). -/
def LedgerEntry.gap_marker (instant_utc : Int) (gfrom gto : String) : LedgerEntry :=
  { instant_utc := instant_utc
    local_timestamp := gfrom ++ (" → ") ++ gto
    block_id := 0
    chapter_id := 0
    offset_str := ""
    dst_badge := DstBadge.gapMarker gfrom gto
    second := 0
    utc_offset_minutes := 0 }

/-- Recalculate an entry's display fields for a new timezone (ledger.rs,
LedgerEntry::recalculate_for_tz).  Gap and overlap markers keep their
badge; other entries get Active/None from the recomputed is_dst. -/
def LedgerEntry.recalculate_for_tz (e : LedgerEntry) (z : Zone) : LedgerEntry :=
  let time_data := compute_time_data_at z e.instant_utc
  { e with
    local_timestamp := fmt_timestamp time_data
    block_id := time_data.minute
    chapter_id := time_data.hour24
    offset_str := time_data.format_utc_offset
    utc_offset_minutes := time_data.utc_offset_minutes
    dst_badge :=
      match e.dst_badge with
      | DstBadge.gapMarker a b => DstBadge.gapMarker a b
      | DstBadge.overlapPass1 => DstBadge.overlapPass1
      | DstBadge.overlapPass2 => DstBadge.overlapPass2
      | _ => if time_data.is_dst then DstBadge.active else DstBadge.none }

/-- Fall-back overlap tracking state (ledger.rs, OverlapState). -/
structure OverlapState where
  in_overlap : Bool
  overlap_hour : Option Nat
  is_first_pass : Bool
  pre_fallback_offset : Option Int
deriving DecidableEq, Repr

/-- The derived Default of OverlapState. -/
def OverlapState.default : OverlapState :=
  { in_overlap := false
    overlap_hour := Option.none
    is_first_pass := false
    pre_fallback_offset := Option.none }

/-- Ledger view state (ledger.rs, LedgerState), restricted to the fields
the update logic touches; the collapse/scroll presentation state is
omitted. -/
structure LedgerState where
  entries : List LedgerEntry
  time_range : TimeRangeFilter
  last_second : Option Nat
  last_minute : Option Nat
  last_offset : Option Int
  overlap_state : OverlapState
deriving DecidableEq, Repr

/-- The Default of LedgerState (empty entries, 10-minute range, no
recorded second/minute/offset, idle overlap state). -/
def LedgerState.init : LedgerState :=
  { entries := []
    time_range := TimeRangeFilter.minutes10
    last_second := Option.none
    last_minute := Option.none
    last_offset := Option.none
    overlap_state := OverlapState.default }

/-- Maximum number of entries for the current time range (ledger.rs,
LedgerState::max_entries). -/
def LedgerState.max_entries (s : LedgerState) : Nat :=
  s.time_range.as_seconds

/-- Relabel one entry during the retroactive fall-back scan: entries of
the given hour carrying the pre-fallback offset become OverlapPass1,
except gap markers (the loop body of ledger.rs,
LedgerState::mark_overlap_pass1). -/
def relabel_pass1 (hour : Nat) (dst_offset : Int) (e : LedgerEntry) : LedgerEntry :=
  if e.chapter_id = hour ∧ e.utc_offset_minutes = dst_offset then
    match e.dst_badge with
    | DstBadge.gapMarker _ _ => e
    | _ => { e with dst_badge := DstBadge.overlapPass1 }
  else e

/-- Retroactively mark entries as Pass 1 when a fall-back is detected
(ledger.rs, LedgerState::mark_overlap_pass1). -/
def LedgerState.mark_overlap_pass1 (s : LedgerState) (hour : Nat) (dst_offset : Int) :
    LedgerState :=
  { s with entries := s.entries.map (relabel_pass1 hour dst_offset) }

/-- The overlap-state transition driven by the DstChange match at the top
of ledger.rs, LedgerState::check_for_dst_transitions: confirm the second
pass on a negative JustOccurred, enter a first pass on a negative
Upcoming with an observed offset change, and reset once past the overlap
hour on None. -/
def dst_change_step (os : OverlapState) (last_offset : Option Int) (td : TimeData) :
    OverlapState :=
  match td.dst_change with
  | DstChange.justOccurred _ delta_minutes =>
      if delta_minutes < 0 then
        if os.in_overlap && os.is_first_pass then { os with is_first_pass := false } else os
      else os
  | DstChange.upcoming _ delta_minutes =>
      if delta_minutes < 0 then
        match last_offset with
        | some lo =>
            if td.utc_offset_minutes ≠ lo then
              { in_overlap := true
                is_first_pass := true
                overlap_hour := some td.hour24
                pre_fallback_offset := some lo }
            else os
        | none => os
      else os
  | DstChange.none =>
      if os.in_overlap then
        match os.overlap_hour with
        | some overlap_hour =>
            if td.hour24 ≠ overlap_hour ∧ os.is_first_pass = false then OverlapState.default
            else os
        | none => os
      else os

/-- Check for DST transitions and update the overlap state (ledger.rs,
LedgerState::check_for_dst_transitions): first the DstChange match, then
the offset-decrease detection that enters the second pass and
retroactively marks the first pass. -/
def LedgerState.check_for_dst_transitions (s : LedgerState) (td : TimeData) : LedgerState :=
  let os1 := dst_change_step s.overlap_state s.last_offset td
  match s.last_offset with
  | some last_offset =>
      if td.utc_offset_minutes < last_offset ∧ os1.in_overlap = false then
        LedgerState.mark_overlap_pass1
          { s with overlap_state :=
              { in_overlap := true
                is_first_pass := false
                overlap_hour := some td.hour24
                pre_fallback_offset := some last_offset } }
          td.hour24 last_offset
      else { s with overlap_state := os1 }
  | none => { s with overlap_state := os1 }

/-- The synthetic gap entry built on a spring-forward minute boundary
(the gap_marker call inside ledger.rs, LedgerState::check_for_dst_gap):
labels hh:00 of the skipped hour and hh:00 of the current hour. -/
def gap_entry_of (td : TimeData) : LedgerEntry :=
  LedgerEntry.gap_marker td.local_datetime
    (format2 (if 0 < td.hour24 then td.hour24 - 1 else 23) ++ (":00"))
    (format2 td.hour24 ++ (":00"))

/-- Check for DST gaps when the minute changes (ledger.rs,
LedgerState::check_for_dst_gap): on a positive JustOccurred, push a gap
marker entry to the front. -/
def LedgerState.check_for_dst_gap (s : LedgerState) (td : TimeData) (_z : Zone) :
    LedgerState :=
  match td.dst_change with
  | DstChange.justOccurred _ delta_minutes =>
      if 0 < delta_minutes then { s with entries := gap_entry_of td :: s.entries } else s
  | _ => s

/-- Evict entries beyond the window cap from the oldest end (ledger.rs,
LedgerState::prune_entries — pop_back while longer than max_entries). -/
def LedgerState.prune_entries (s : LedgerState) : LedgerState :=
  { s with entries := s.entries.take s.max_entries }

/-- Update the ledger with new time data (ledger.rs, LedgerState::update).
Returns the new state and whether an entry was added: skip when the
second is unchanged; advance the overlap state; build the entry; on a
minute boundary check for a gap; record minute and offset; push the
entry; prune. -/
def LedgerState.update (s : LedgerState) (td : TimeData) (z : Zone) : LedgerState × Bool :=
  if s.last_second = some td.second then (s, false)
  else
    let s1 : LedgerState := { s with last_second := some td.second }
    let s2 := s1.check_for_dst_transitions td
    let entry := LedgerEntry.from_instant td.local_datetime z td.is_dst
      s2.overlap_state.in_overlap s2.overlap_state.is_first_pass
    let s3 :=
      match s2.last_minute with
      | some last_min => if td.minute ≠ last_min then s2.check_for_dst_gap td z else s2
      | none => s2
    let s4 := { s3 with
      last_minute := some td.minute
      last_offset := some td.utc_offset_minutes }
    let s5 := { s4 with entries := entry :: s4.entries }
    (s5.prune_entries, true)

/-- Set the time range filter and prune (ledger.rs,
LedgerState::set_time_range). -/
def LedgerState.set_time_range (s : LedgerState) (range : TimeRangeFilter) : LedgerState :=
  LedgerState.prune_entries { s with time_range := range }

/-- Recalculate all entries for a new timezone (ledger.rs,
LedgerState::recalculate_for_tz). -/
def LedgerState.recalculate_for_tz (s : LedgerState) (z : Zone) : LedgerState :=
  { s with entries := s.entries.map (fun e => e.recalculate_for_tz z) }

/-- Number of gap-marker entries in a list. -/
def gap_count (l : List LedgerEntry) : Nat :=
  (l.filter (fun e => e.dst_badge.is_gap)).length

/-- Ledger states reachable from the initial state through the public
mutating operations: update ticks, time-range changes and timezone
recalculations. -/
inductive Reachable : LedgerState → Prop
  | init : Reachable LedgerState.init
  | update (s : LedgerState) (td : TimeData) (z : Zone) :
      Reachable s → Reachable (s.update td z).1
  | set_range (s : LedgerState) (r : TimeRangeFilter) :
      Reachable s → Reachable (s.set_time_range r)
  | recalc (s : LedgerState) (z : Zone) :
      Reachable s → Reachable (s.recalculate_for_tz z)

/-- Pruning always restores the cap. -/
lemma prune_entries_le (s : LedgerState) :
    (s.prune_entries).entries.length ≤ (s.prune_entries).max_entries := by
  simp only [LedgerState.prune_entries, LedgerState.max_entries, List.length_take]
  exact min_le_left _ _

/-- C3: from the initial state, every sequence of updates, time-range
changes and timezone recalculations keeps the number of stored entries
within max_entries for the currently selected time range. -/
theorem ledger_entries_le_max_entries (s : LedgerState) (h : Reachable s) :
    s.entries.length ≤ s.max_entries := by
  induction h with
  | init => decide
  | update s0 td z _ ih =>
      by_cases hs : s0.last_second = some td.second
      · simpa [LedgerState.update, hs] using ih
      · simp only [LedgerState.update, if_neg hs]
        exact prune_entries_le _
  | set_range s0 r _ ih =>
      exact prune_entries_le _
  | recalc s0 z _ ih =>
      simpa [LedgerState.recalculate_for_tz, LedgerState.max_entries] using ih

/-- Witness for C3 at the initial state. -/
theorem ledger_entries_le_max_entries_witness :
    Reachable LedgerState.init ∧ LedgerState.init.entries.length ≤ LedgerState.init.max_entries :=
  ⟨Reachable.init, ledger_entries_le_max_entries LedgerState.init Reachable.init⟩

/-- A skipped tick (unchanged second) leaves the state untouched and
reports no new entry. -/
lemma update_skip (s : LedgerState) (td : TimeData) (z : Zone)
    (h : s.last_second = some td.second) :
    s.update td z = (s, false) := by
  rw [LedgerState.update, if_pos h]

/-- check_for_dst_transitions never touches the last_* bookkeeping
fields or the time range. -/
lemma check_for_dst_transitions_frame (s : LedgerState) (td : TimeData) :
    (s.check_for_dst_transitions td).last_second = s.last_second ∧
    (s.check_for_dst_transitions td).last_minute = s.last_minute ∧
    (s.check_for_dst_transitions td).last_offset = s.last_offset ∧
    (s.check_for_dst_transitions td).time_range = s.time_range := by
  unfold LedgerState.check_for_dst_transitions LedgerState.mark_overlap_pass1
  cases hlo : s.last_offset with
  | none => exact ⟨rfl, rfl, rfl, rfl⟩
  | some lo =>
      dsimp only
      split_ifs <;> exact ⟨rfl, rfl, rfl, rfl⟩

/-- check_for_dst_gap never touches the last_* bookkeeping fields or the
time range. -/
lemma check_for_dst_gap_frame (s : LedgerState) (td : TimeData) (z : Zone) :
    (s.check_for_dst_gap td z).last_second = s.last_second ∧
    (s.check_for_dst_gap td z).last_minute = s.last_minute ∧
    (s.check_for_dst_gap td z).last_offset = s.last_offset ∧
    (s.check_for_dst_gap td z).time_range = s.time_range := by
  unfold LedgerState.check_for_dst_gap
  cases td.dst_change with
  | none => exact ⟨rfl, rfl, rfl, rfl⟩
  | upcoming i d => exact ⟨rfl, rfl, rfl, rfl⟩
  | justOccurred i d =>
      dsimp only
      split_ifs <;> exact ⟨rfl, rfl, rfl, rfl⟩

/-- After any update call the recorded last second is the tick's second. -/
lemma update_last_second (s : LedgerState) (td : TimeData) (z : Zone) :
    ((s.update td z).1).last_second = some td.second := by
  by_cases hs : s.last_second = some td.second
  · rw [update_skip s td z hs]
    exact hs
  · simp only [LedgerState.update, if_neg hs]
    cases hlm : (LedgerState.check_for_dst_transitions
        { s with last_second := some td.second } td).last_minute with
    | none =>
        simp only [hlm, LedgerState.prune_entries]
        exact (check_for_dst_transitions_frame _ _).1
    | some m =>
        simp only [hlm, LedgerState.prune_entries]
        split_ifs
        · exact ((check_for_dst_gap_frame _ _ _).1).trans
            (check_for_dst_transitions_frame _ _).1
        · exact (check_for_dst_transitions_frame _ _).1

/-- C7: two consecutive update calls carrying the same wall-clock second
collapse to one — the second call returns false and leaves the whole
state (entries, overlap state, bookkeeping) unchanged, so at most one
entry is stored per wall second. -/
theorem same_second_update_skipped (s : LedgerState) (td td2 : TimeData) (z z2 : Zone)
    (h : td2.second = td.second) :
    ((s.update td z).1).update td2 z2 = ((s.update td z).1, false) :=
  update_skip _ td2 z2 (by rw [update_last_second, h])

/-- Time data at second 5 of minute 0 (hour 0) — the first tick of the
same-second experiments. -/
def td_sec5_min0 : TimeData :=
  { hour12 := 12
    hour24 := 0
    minute := 0
    second := 5
    meridiem := Meridiem.am
    utc_offset_minutes := 0
    is_dst := false
    dst_change := DstChange.none
    local_datetime := 0 }

/-- Time data exactly one minute later: a different instant and minute
but the same second-within-minute value. -/
def td_sec5_min1 : TimeData :=
  { td_sec5_min0 with minute := 1, local_datetime := 60000000000 }

/-- Witness for C7: a repeated tick with the same wall second is a no-op
returning false. -/
theorem same_second_update_skipped_witness :
    td_sec5_min0.second = td_sec5_min0.second ∧
    ((LedgerState.init.update td_sec5_min0 flat_zone).1).update td_sec5_min0 flat_zone =
      ((LedgerState.init.update td_sec5_min0 flat_zone).1, false) :=
  ⟨rfl, same_second_update_skipped LedgerState.init td_sec5_min0 td_sec5_min0
    flat_zone flat_zone rfl⟩

/-- C10: the deduplication key is only the second-within-minute field.
The two ticks below are one minute apart (different instants, different
minutes, equal second field): the first stores an entry, the second is
skipped entirely — it returns false and changes nothing, silently
dropping that wall second. -/
theorem dedup_keyed_on_second_within_minute :
    td_sec5_min0.local_datetime ≠ td_sec5_min1.local_datetime ∧
    td_sec5_min0.minute ≠ td_sec5_min1.minute ∧
    td_sec5_min0.second = td_sec5_min1.second ∧
    (LedgerState.init.update td_sec5_min0 flat_zone).1.entries.length = 1 ∧
    ((LedgerState.init.update td_sec5_min0 flat_zone).1.update td_sec5_min1 flat_zone).2
      = false ∧
    ((LedgerState.init.update td_sec5_min0 flat_zone).1.update td_sec5_min1 flat_zone).1
      = (LedgerState.init.update td_sec5_min0 flat_zone).1 := by
  refine ⟨by decide, by decide, rfl, ?_, ?_, ?_⟩ <;> decide

/-- Relabelling is idempotent on every entry. -/
lemma relabel_pass1_idem (hour : Nat) (off : Int) (e : LedgerEntry) :
    relabel_pass1 hour off (relabel_pass1 hour off e) = relabel_pass1 hour off e := by
  cases e with
  | mk iu lt bi ci os db sec uo =>
      by_cases h : ci = hour ∧ uo = off
      · cases db <;> simp [relabel_pass1, h]
      · simp [relabel_pass1, h]

/-- Entries already labelled OverlapPass1 are left untouched. -/
lemma relabel_pass1_fixes_pass1 (hour : Nat) (off : Int) (e : LedgerEntry)
    (h : e.dst_badge = DstBadge.overlapPass1) :
    relabel_pass1 hour off e = e := by
  cases e with
  | mk iu lt bi ci os db sec uo =>
      cases db <;> simp_all [relabel_pass1]

/-- Gap markers are left untouched by the relabelling scan. -/
lemma relabel_pass1_fixes_gap (hour : Nat) (off : Int) (e : LedgerEntry)
    (h : e.dst_badge.is_gap = true) :
    relabel_pass1 hour off e = e := by
  cases e with
  | mk iu lt bi ci os db sec uo =>
      cases db <;> simp_all [relabel_pass1, DstBadge.is_gap]

/-- Entries outside the repeated hour or at a different offset are left
untouched. -/
lemma relabel_pass1_fixes_other (hour : Nat) (off : Int) (e : LedgerEntry)
    (h : ¬ (e.chapter_id = hour ∧ e.utc_offset_minutes = off)) :
    relabel_pass1 hour off e = e := by
  rw [relabel_pass1, if_neg h]

/-- A matching non-gap entry is relabelled to OverlapPass1. -/
lemma relabel_pass1_sets_pass1 (hour : Nat) (off : Int) (e : LedgerEntry)
    (h1 : e.chapter_id = hour) (h2 : e.utc_offset_minutes = off)
    (h3 : e.dst_badge.is_gap = false) :
    (relabel_pass1 hour off e).dst_badge = DstBadge.overlapPass1 := by
  cases e with
  | mk iu lt bi ci os db sec uo =>
      cases db <;> simp_all [relabel_pass1, DstBadge.is_gap]

/-- Once the overlap state is tracking the current hour, the DstChange
match never stops tracking within the same tick. -/
lemma dst_change_step_keeps_tracking (os : OverlapState) (lo : Option Int) (td : TimeData)
    (h : os.in_overlap = true) (hh : os.overlap_hour = some td.hour24) :
    (dst_change_step os lo td).in_overlap = true := by
  obtain ⟨io, oh, fp, pf⟩ := os
  dsimp only at h hh
  subst h
  subst hh
  unfold dst_change_step
  cases td.dst_change with
  | none => simp
  | upcoming i d =>
      cases lo with
      | none =>
          dsimp only
          split_ifs <;> rfl
      | some l =>
          dsimp only
          split_ifs <;> rfl
  | justOccurred i d =>
      dsimp only
      split_ifs <;> rfl

/-- While the overlap state already tracks the current hour, the
transition check leaves the stored entries untouched: the retroactive
relabelling cannot fire a second time within the same overlap. -/
lemma check_entries_noop_when_tracking (s : LedgerState) (td : TimeData)
    (h : s.overlap_state.in_overlap = true)
    (hh : s.overlap_state.overlap_hour = some td.hour24) :
    (s.check_for_dst_transitions td).entries = s.entries := by
  unfold LedgerState.check_for_dst_transitions
  cases hlo : s.last_offset with
  | none => rfl
  | some lo =>
      dsimp only
      rw [if_neg]
      intro hcon
      have htrack := dst_change_step_keeps_tracking s.overlap_state (some lo) td h hh
      rw [hcon.2] at htrack
      exact Bool.false_ne_true htrack

/-- C2: when a tick observes the UTC offset decrease below the previous
tick's offset and the DstChange match has not already put the overlap
state in tracking mode, check_for_dst_transitions relabels exactly the
stored entries of the current local hour carrying the pre-fallback
offset to OverlapPass1 (gap markers and non-matching entries untouched,
entries already OverlapPass1 unchanged), records the overlap with the
pre-fallback offset, the relabelling is idempotent, and running the
check again on the resulting state relabels nothing further. -/
theorem fallback_relabels_pass1_once (s : LedgerState) (td : TimeData) (prev : Int)
    (hlo : s.last_offset = some prev)
    (hdec : td.utc_offset_minutes < prev)
    (hidle : (dst_change_step s.overlap_state s.last_offset td).in_overlap = false) :
    (s.check_for_dst_transitions td).entries =
      s.entries.map (relabel_pass1 td.hour24 prev) ∧
    (s.check_for_dst_transitions td).overlap_state.in_overlap = true ∧
    (s.check_for_dst_transitions td).overlap_state.pre_fallback_offset = some prev ∧
    (∀ e, relabel_pass1 td.hour24 prev (relabel_pass1 td.hour24 prev e) =
      relabel_pass1 td.hour24 prev e) ∧
    (∀ e, e.dst_badge = DstBadge.overlapPass1 → relabel_pass1 td.hour24 prev e = e) ∧
    (∀ e, e.dst_badge.is_gap = true → relabel_pass1 td.hour24 prev e = e) ∧
    (∀ e, e.chapter_id = td.hour24 → e.utc_offset_minutes = prev →
      e.dst_badge.is_gap = false →
      (relabel_pass1 td.hour24 prev e).dst_badge = DstBadge.overlapPass1) ∧
    (∀ e, ¬ (e.chapter_id = td.hour24 ∧ e.utc_offset_minutes = prev) →
      relabel_pass1 td.hour24 prev e = e) ∧
    ((s.check_for_dst_transitions td).check_for_dst_transitions td).entries =
      (s.check_for_dst_transitions td).entries := by
  rw [hlo] at hidle
  have hstep : s.check_for_dst_transitions td =
      LedgerState.mark_overlap_pass1
        { s with overlap_state :=
            { in_overlap := true
              is_first_pass := false
              overlap_hour := some td.hour24
              pre_fallback_offset := some prev } }
        td.hour24 prev := by
    unfold LedgerState.check_for_dst_transitions
    rw [hlo]
    dsimp only
    rw [if_pos ⟨hdec, hidle⟩]
  refine ⟨by rw [hstep]; rfl, by rw [hstep]; rfl, by rw [hstep]; rfl,
    relabel_pass1_idem td.hour24 prev,
    relabel_pass1_fixes_pass1 td.hour24 prev,
    relabel_pass1_fixes_gap td.hour24 prev,
    relabel_pass1_sets_pass1 td.hour24 prev,
    relabel_pass1_fixes_other td.hour24 prev, ?_⟩
  rw [hstep]
  exact check_entries_noop_when_tracking _ td rfl rfl

/-- An entry in hour 1 at offset 60 with the plain Active badge, stored
before a fall-back is confirmed. -/
def entry_pre_fallback : LedgerEntry :=
  { instant_utc := 0
    local_timestamp := ""
    block_id := 0
    chapter_id := 1
    offset_str := ""
    dst_badge := DstBadge.active
    second := 0
    utc_offset_minutes := 60 }

/-- A ledger state holding that entry, with the previous tick's offset
recorded as 60 minutes and an idle overlap state. -/
def state_pre_fallback : LedgerState :=
  { LedgerState.init with
    entries := [entry_pre_fallback]
    last_offset := some 60 }

/-- The tick on which the offset has decreased to 0 minutes within the
same local hour, with no DstChange classification. -/
def td_fallback : TimeData :=
  { hour12 := 1
    hour24 := 1
    minute := 0
    second := 1
    meridiem := Meridiem.am
    utc_offset_minutes := 0
    is_dst := false
    dst_change := DstChange.none
    local_datetime := 3600000000000 }

/-- Witness for C2 on a concrete fall-back tick. -/
theorem fallback_relabels_pass1_once_witness :
    (state_pre_fallback.last_offset = some 60 ∧
     td_fallback.utc_offset_minutes < 60 ∧
     (dst_change_step state_pre_fallback.overlap_state state_pre_fallback.last_offset
       td_fallback).in_overlap = false) ∧
    ((state_pre_fallback.check_for_dst_transitions td_fallback).entries =
       state_pre_fallback.entries.map (relabel_pass1 td_fallback.hour24 60) ∧
     (state_pre_fallback.check_for_dst_transitions td_fallback).overlap_state.in_overlap
       = true ∧
     (state_pre_fallback.check_for_dst_transitions
       td_fallback).overlap_state.pre_fallback_offset = some 60 ∧
     (∀ e, relabel_pass1 td_fallback.hour24 60 (relabel_pass1 td_fallback.hour24 60 e) =
       relabel_pass1 td_fallback.hour24 60 e) ∧
     (∀ e, e.dst_badge = DstBadge.overlapPass1 →
       relabel_pass1 td_fallback.hour24 60 e = e) ∧
     (∀ e, e.dst_badge.is_gap = true → relabel_pass1 td_fallback.hour24 60 e = e) ∧
     (∀ e, e.chapter_id = td_fallback.hour24 → e.utc_offset_minutes = 60 →
       e.dst_badge.is_gap = false →
       (relabel_pass1 td_fallback.hour24 60 e).dst_badge = DstBadge.overlapPass1) ∧
     (∀ e, ¬ (e.chapter_id = td_fallback.hour24 ∧ e.utc_offset_minutes = 60) →
       relabel_pass1 td_fallback.hour24 60 e = e) ∧
     ((state_pre_fallback.check_for_dst_transitions
         td_fallback).check_for_dst_transitions td_fallback).entries =
       (state_pre_fallback.check_for_dst_transitions td_fallback).entries) :=
  ⟨⟨rfl, by decide, by decide⟩,
    fallback_relabels_pass1_once state_pre_fallback td_fallback 60 rfl
      (by decide) (by decide)⟩

/-- Entries built by from_instant never carry a gap badge: the gap badge
only comes from the synthetic gap_marker constructor. -/
lemma from_instant_not_gap (i : Int) (z : Zone) (a b c : Bool) :
    (LedgerEntry.from_instant i z a b c).dst_badge.is_gap = false := by
  unfold LedgerEntry.from_instant
  dsimp only
  split_ifs <;> rfl

/-- The synthetic gap entry carries a gap badge. -/
lemma gap_entry_of_is_gap (td : TimeData) : (gap_entry_of td).dst_badge.is_gap = true := rfl

/-- The transition check either leaves the stored entries alone or maps
the retroactive relabelling over them. -/
lemma check_for_dst_transitions_entries_shape (s : LedgerState) (td : TimeData) :
    (s.check_for_dst_transitions td).entries = s.entries ∨
    ∃ lo, (s.check_for_dst_transitions td).entries =
      s.entries.map (relabel_pass1 td.hour24 lo) := by
  unfold LedgerState.check_for_dst_transitions
  cases hlo : s.last_offset with
  | none => exact Or.inl rfl
  | some lo =>
      dsimp only
      split_ifs
      · exact Or.inr ⟨lo, rfl⟩
      · exact Or.inl rfl

/-- Relabelling preserves gap badges in both directions. -/
lemma relabel_pass1_is_gap (hour : Nat) (off : Int) (e : LedgerEntry) :
    (relabel_pass1 hour off e).dst_badge.is_gap = e.dst_badge.is_gap := by
  cases e with
  | mk iu lt bi ci os db sec uo =>
      by_cases h : ci = hour ∧ uo = off
      · cases db <;> simp [relabel_pass1, h, DstBadge.is_gap]
      · simp [relabel_pass1, h]

/-- Gap count of a cons. -/
lemma gap_count_cons (e : LedgerEntry) (l : List LedgerEntry) :
    gap_count (e :: l) = (if e.dst_badge.is_gap then 1 else 0) + gap_count l := by
  by_cases h : e.dst_badge.is_gap <;> simp [gap_count, List.filter_cons, h] <;> omega

/-- The relabelling map does not change the number of gap markers. -/
lemma gap_count_map_relabel (hour : Nat) (off : Int) (l : List LedgerEntry) :
    gap_count (l.map (relabel_pass1 hour off)) = gap_count l := by
  induction l with
  | nil => rfl
  | cons a t ih =>
      rw [List.map_cons, gap_count_cons, gap_count_cons, relabel_pass1_is_gap, ih]

/-- The transition check preserves the entry count and the gap count. -/
lemma check_for_dst_transitions_counts (s : LedgerState) (td : TimeData) :
    (s.check_for_dst_transitions td).entries.length = s.entries.length ∧
    gap_count (s.check_for_dst_transitions td).entries = gap_count s.entries := by
  rcases check_for_dst_transitions_entries_shape s td with h | ⟨lo, h⟩
  · rw [h]
    exact ⟨rfl, rfl⟩
  · rw [h]
    exact ⟨List.length_map _ _, gap_count_map_relabel _ _ _⟩

/-- C1 (amended): on a minute-boundary tick for which the classifier
reports JustOccurred with a positive delta, the update emits the
synthetic GapMarker entry in addition to — not instead of — the normal
entry for that boundary tick: the new front of the ledger is the normal
(non-gap) entry followed by the gap marker, and the number of gap markers
grows by exactly one on each such boundary (so a day with a spring
forward accumulates one GapMarker per minute boundary ticked while
JustOccurred holds, subject to pruning, rather than exactly one). -/
theorem gap_marker_in_addition_on_boundary (s : LedgerState) (td : TimeData) (z : Zone)
    (m : Nat) (i d : Int)
    (hs : ¬ s.last_second = some td.second)
    (hm : s.last_minute = some m)
    (hne : td.minute ≠ m)
    (hjo : td.dst_change = DstChange.justOccurred i d)
    (hd : 0 < d)
    (hcap : s.entries.length + 2 ≤ s.max_entries) :
    (s.update td z).2 = true ∧
    ∃ e rest,
      (s.update td z).1.entries = e :: gap_entry_of td :: rest ∧
      e.dst_badge.is_gap = false ∧
      rest.length = s.entries.length ∧
      gap_count rest = gap_count s.entries ∧
      gap_count (s.update td z).1.entries = gap_count s.entries + 1 := by
  simp only [LedgerState.update, if_neg hs]
  have h2m : (LedgerState.check_for_dst_transitions
      { s with last_second := some td.second } td).last_minute = some m := by
    rw [(check_for_dst_transitions_frame _ _).2.1]
    exact hm
  rw [h2m]
  dsimp only
  rw [if_pos hne]
  simp only [LedgerState.check_for_dst_gap, hjo]
  rw [if_pos hd]
  have hlen := (check_for_dst_transitions_counts
    { s with last_second := some td.second } td).1
  have hgc := (check_for_dst_transitions_counts
    { s with last_second := some td.second } td).2
  have htr : (LedgerState.check_for_dst_transitions
      { s with last_second := some td.second } td).time_range = s.time_range :=
    (check_for_dst_transitions_frame _ _).2.2.2
  simp only [LedgerState.prune_entries, LedgerState.max_entries]
  rw [List.take_of_length_le]
  · refine ⟨by simp, _, _, rfl, from_instant_not_gap _ _ _ _ _, hlen, hgc, ?_⟩
    rw [gap_count_cons, gap_count_cons, from_instant_not_gap, gap_entry_of_is_gap, hgc]
    simp [Nat.add_comm]
  · simp only [List.length_cons, hlen, htr]
    simpa [LedgerState.max_entries] using hcap

/-- A tick at 03:00:00 local just after a spring forward of +60 minutes
(the classifier still reports JustOccurred for 24 hours). -/
def td_spring : TimeData :=
  { hour12 := 3
    hour24 := 3
    minute := 0
    second := 0
    meridiem := Meridiem.am
    utc_offset_minutes := 0
    is_dst := true
    dst_change := DstChange.justOccurred 0 60
    local_datetime := 0 }

/-- The same wall minute at second 59 (not a minute boundary). -/
def td_spring_b : TimeData :=
  { td_spring with second := 59 }

/-- The next minute boundary, still inside the JustOccurred window. -/
def td_spring_c : TimeData :=
  { td_spring with minute := 1 }

/-- A fresh ledger whose previous tick was in minute 59, so the next tick
is a minute boundary. -/
def state_before_boundary : LedgerState :=
  { LedgerState.init with last_minute := some 59 }

/-- Witness for C1 (amended) at the concrete boundary tick. -/
theorem gap_marker_in_addition_on_boundary_witness :
    (¬ state_before_boundary.last_second = some td_spring.second ∧
     state_before_boundary.last_minute = some 59 ∧
     td_spring.minute ≠ 59 ∧
     td_spring.dst_change = DstChange.justOccurred 0 60 ∧
     (0 : Int) < 60 ∧
     state_before_boundary.entries.length + 2 ≤ state_before_boundary.max_entries) ∧
    ((state_before_boundary.update td_spring flat_zone).2 = true ∧
     ∃ e rest,
       (state_before_boundary.update td_spring flat_zone).1.entries =
         e :: gap_entry_of td_spring :: rest ∧
       e.dst_badge.is_gap = false ∧
       rest.length = state_before_boundary.entries.length ∧
       gap_count rest = gap_count state_before_boundary.entries ∧
       gap_count (state_before_boundary.update td_spring flat_zone).1.entries =
         gap_count state_before_boundary.entries + 1) :=
  ⟨⟨by decide, rfl, by decide, rfl, by decide, by decide⟩,
    gap_marker_in_addition_on_boundary state_before_boundary td_spring flat_zone 59 0 60
      (by decide) rfl (by decide) rfl (by decide) (by decide)⟩

/-- C1 (counterexample): at a minute boundary with JustOccurred(+60) the
ledger ends up with two entries — a normal (non-gap) entry at the front
and the gap marker behind it — so the GapMarker is not emitted instead of
the normal entry; and a second boundary tick while JustOccurred persists
adds a second GapMarker, so the day does not contain exactly one. -/
theorem gap_marker_added_in_addition_cex :
    (state_before_boundary.update td_spring flat_zone).1.entries.length = 2 ∧
    gap_count (state_before_boundary.update td_spring flat_zone).1.entries = 1 ∧
    ((state_before_boundary.update td_spring flat_zone).1.entries.head?.map
      (fun e => e.dst_badge.is_gap)) = some false ∧
    gap_count ((((state_before_boundary.update td_spring flat_zone).1.update td_spring_b
      flat_zone).1).update td_spring_c flat_zone).1.entries = 2 := by
  refine ⟨?_, ?_, ?_, ?_⟩ <;> decide

/-- C8: recalculating the ledger for a new timezone maps the per-entry
recalculation over the stored entries (no entry added or removed), and
for each entry the UTC instant is unchanged, every display field (local
timestamp, block id, chapter id, offset string, raw offset minutes) is
recomputed from that instant against the new zone, a marker badge
(GapMarker / OverlapPass1 / OverlapPass2) is preserved exactly, and a
non-marker badge is recomputed from the new zone's is_dst. -/
theorem recalculate_for_tz_spec (z : Zone) (s : LedgerState) (e : LedgerEntry) :
    (s.recalculate_for_tz z).entries = s.entries.map (fun x => x.recalculate_for_tz z) ∧
    (s.recalculate_for_tz z).entries.length = s.entries.length ∧
    (e.recalculate_for_tz z).instant_utc = e.instant_utc ∧
    (e.recalculate_for_tz z).local_timestamp =
      fmt_timestamp (compute_time_data_at z e.instant_utc) ∧
    (e.recalculate_for_tz z).block_id = (compute_time_data_at z e.instant_utc).minute ∧
    (e.recalculate_for_tz z).chapter_id = (compute_time_data_at z e.instant_utc).hour24 ∧
    (e.recalculate_for_tz z).offset_str =
      (compute_time_data_at z e.instant_utc).format_utc_offset ∧
    (e.recalculate_for_tz z).utc_offset_minutes =
      (compute_time_data_at z e.instant_utc).utc_offset_minutes ∧
    (e.recalculate_for_tz z).second = e.second ∧
    (e.is_marker = true → (e.recalculate_for_tz z).dst_badge = e.dst_badge) ∧
    (e.is_marker = false → (e.recalculate_for_tz z).dst_badge =
      (if (compute_time_data_at z e.instant_utc).is_dst then DstBadge.active
       else DstBadge.none)) := by
  refine ⟨rfl, List.length_map _ _, rfl, rfl, rfl, rfl, rfl, rfl, rfl, ?_, ?_⟩
  · intro h
    cases e with
    | mk iu lt bi ci os db sec uo =>
        cases db <;> simp_all [LedgerEntry.recalculate_for_tz, LedgerEntry.is_marker]
  · intro h
    cases e with
    | mk iu lt bi ci os db sec uo =>
        cases db <;> simp_all [LedgerEntry.recalculate_for_tz, LedgerEntry.is_marker]

/-- Witness for C8 at a concrete zone, state and (non-marker) entry. -/
theorem recalculate_for_tz_spec_witness :
    (state_pre_fallback.recalculate_for_tz flat_zone).entries =
      state_pre_fallback.entries.map (fun x => x.recalculate_for_tz flat_zone) ∧
    (state_pre_fallback.recalculate_for_tz flat_zone).entries.length =
      state_pre_fallback.entries.length ∧
    (entry_pre_fallback.recalculate_for_tz flat_zone).instant_utc =
      entry_pre_fallback.instant_utc ∧
    (entry_pre_fallback.recalculate_for_tz flat_zone).local_timestamp =
      fmt_timestamp (compute_time_data_at flat_zone entry_pre_fallback.instant_utc) ∧
    (entry_pre_fallback.recalculate_for_tz flat_zone).block_id =
      (compute_time_data_at flat_zone entry_pre_fallback.instant_utc).minute ∧
    (entry_pre_fallback.recalculate_for_tz flat_zone).chapter_id =
      (compute_time_data_at flat_zone entry_pre_fallback.instant_utc).hour24 ∧
    (entry_pre_fallback.recalculate_for_tz flat_zone).offset_str =
      (compute_time_data_at flat_zone entry_pre_fallback.instant_utc).format_utc_offset ∧
    (entry_pre_fallback.recalculate_for_tz flat_zone).utc_offset_minutes =
      (compute_time_data_at flat_zone entry_pre_fallback.instant_utc).utc_offset_minutes ∧
    (entry_pre_fallback.recalculate_for_tz flat_zone).second = entry_pre_fallback.second ∧
    (entry_pre_fallback.is_marker = true →
      (entry_pre_fallback.recalculate_for_tz flat_zone).dst_badge =
        entry_pre_fallback.dst_badge) ∧
    (entry_pre_fallback.is_marker = false →
      (entry_pre_fallback.recalculate_for_tz flat_zone).dst_badge =
        (if (compute_time_data_at flat_zone entry_pre_fallback.instant_utc).is_dst then
          DstBadge.active
         else DstBadge.none)) :=
  recalculate_for_tz_spec flat_zone state_pre_fallback entry_pre_fallback
